import Mathlib

/-
Verification development for the 2-D k-d tree in tree.py.

Modelling choices:
- A Python Optional[KDNode] is modelled as an inductive Tree: the value
  None is the constructor nil, and a KDNode with fields point, data,
  left, right is the constructor node.
- Coordinates are modelled as exact integers. The operations insert,
  delete and range_search use only comparisons on coordinates, and on
  integer-valued inputs Python float comparison agrees with integer
  comparison, so the model is exact on such inputs.
- nearest_neighbor in the source computes math.sqrt of a sum of squares
  and only ever compares such values with each other and with
  abs(target[axis] - node.point[axis]).  Since the real square root is
  strictly monotone on nonnegatives, comparing square roots is the same
  as comparing the squares, and abs(a) < sqrt(b) holds iff a ^ 2 < b for
  b >= 0.  The model therefore carries the squared distance, and the
  initial best distance of +infinity is modelled by the value none.
-/

namespace KD

/-- A subtree of the k-d tree: nil models the Python value None, and
node models a KDNode with its point, data, left and right fields
(tree.py lines 7-21). -/
inductive Tree (α : Type) where
  | nil : Tree α
  | node (point : Int × Int) (data : α) (left : Tree α) (right : Tree α) : Tree α
deriving DecidableEq

/-- Coordinate access point[axis] for axis computed as depth % 2
(axis 0 is x, anything else is y). -/
def coord (p : Int × Int) (a : Nat) : Int :=
  if a = 0 then p.1 else p.2

/-- tree.py lines 41-67, KDTree._insert_recursive: descend left on a
strictly smaller coordinate along the split axis, otherwise right,
creating a fresh leaf at the bottom. -/
def insert_recursive (t : Tree α) (p : Int × Int) (dat : α) (depth : Nat) : Tree α :=
  match t with
  | .nil => .node p dat .nil .nil
  | .node q e l r =>
    if coord p (depth % 2) < coord q (depth % 2) then
      .node q e (insert_recursive l p dat (depth + 1)) r
    else
      .node q e l (insert_recursive r p dat (depth + 1))

/-- tree.py lines 31-39, KDTree.insert: start the recursion at the root
with depth 0. -/
def insert (t : Tree α) (p : Int × Int) (dat : α) : Tree α :=
  insert_recursive t p dat 0

/-- Whether the subtree is the Python value None. -/
def isNil : Tree α → Bool
  | .nil => true
  | .node _ _ _ _ => false

/-- tree.py lines 130-167, KDTree._find_min.  Returns the point and data
of the node the source returns, or none when called on None (the source
raises ValueError there; it is never reached from delete).  For axis 0
the source descends only left pointers: if node.left is None it returns
the node, else it recurses into the left child (lines 145-146 and
151-155 collapse to exactly this).  For any other axis it recurses into
both children when present and keeps the smallest, starting from the
node itself (lines 156-167; the leaf early return on lines 147-148 is
the special case where both recursive results are absent). -/
def find_min : Tree α → Nat → Option ((Int × Int) × α)
  | .nil, _ => none
  | .node q e l r, axis =>
    if axis = 0 then
      match find_min l axis with
      | none => some (q, e)
      | some m => some m
    else
      let lm := find_min l axis
      let rm := find_min r axis
      let m1 : (Int × Int) × α :=
        match lm with
        | some m => if coord m.1 axis < coord q axis then m else (q, e)
        | none => (q, e)
      let m2 : (Int × Int) × α :=
        match rm with
        | some m => if coord m.1 axis < coord m1.1 axis then m else m1
        | none => m1
      some m2

/-- tree.py lines 82-128, KDTree._delete_recursive.  On a match: a leaf
is detached; with a right child, the minimum along the current axis in
the right subtree replaces the node and is deleted from the right
subtree; otherwise the minimum in the left subtree replaces the node and
is deleted from the left subtree, which stays attached on the left.  On
a mismatch, descend by coordinate comparison.  The none branches of the
inner matches are unreachable: find_min is none only on nil, and the
subtree recursed into is not nil there. -/
def delete_recursive (t : Tree α) (p : Int × Int) (depth : Nat) : Tree α × Bool :=
  match t with
  | .nil => (.nil, false)
  | .node q e l r =>
    if q = p then
      if isNil l && isNil r then (.nil, true)
      else if isNil r then
        match find_min l (depth % 2) with
        | some m => (.node m.1 m.2 (delete_recursive l m.1 (depth + 1)).1 .nil, true)
        | none => (.node q e l r, true)
      else
        match find_min r (depth % 2) with
        | some m => (.node m.1 m.2 l (delete_recursive r m.1 (depth + 1)).1, true)
        | none => (.node q e l r, true)
    else if coord p (depth % 2) < coord q (depth % 2) then
      (.node q e (delete_recursive l p (depth + 1)).1 r, (delete_recursive l p (depth + 1)).2)
    else
      (.node q e l (delete_recursive r p (depth + 1)).1, (delete_recursive r p (depth + 1)).2)

/-- tree.py lines 69-80, KDTree.delete: run the recursion at depth 0,
returning the new root and the deletion flag. -/
def delete (t : Tree α) (p : Int × Int) : Tree α × Bool :=
  delete_recursive t p 0

/-- All points stored in the subtree, root first then left then right. -/
def points : Tree α → List (Int × Int)
  | .nil => []
  | .node q _ l r => q :: (points l ++ points r)

/-- Number of nodes in the subtree. -/
def size : Tree α → Nat
  | .nil => 0
  | .node _ _ l r => size l + size r + 1

/-- The containment test of tree.py lines 202-203: both coordinates
inside the closed rectangle. -/
def inRange (q mi ma : Int × Int) : Bool :=
  decide (mi.1 ≤ q.1) && decide (q.1 ≤ ma.1) && decide (mi.2 ≤ q.2) && decide (q.2 ≤ ma.2)

/-- tree.py lines 185-215, KDTree._range_search_recursive: append the
node when inside the rectangle, then descend left when
min_point[axis] <= node.point[axis] and right when
node.point[axis] <= max_point[axis].  The Python result list passed by
reference is modelled as the accumulator. -/
def range_search_recursive (t : Tree α) (mi ma : Int × Int) (depth : Nat)
    (acc : List ((Int × Int) × α)) : List ((Int × Int) × α) :=
  match t with
  | .nil => acc
  | .node q e l r =>
    let acc1 := if inRange q mi ma then acc ++ [(q, e)] else acc
    let acc2 := if coord mi (depth % 2) ≤ coord q (depth % 2) then
        range_search_recursive l mi ma (depth + 1) acc1
      else acc1
    if coord q (depth % 2) ≤ coord ma (depth % 2) then
      range_search_recursive r mi ma (depth + 1) acc2
    else acc2

/-- tree.py lines 169-183, KDTree.range_search: run the recursion at
depth 0 on an empty result list. -/
def range_search (t : Tree α) (mi ma : Int × Int) : List ((Int × Int) × α) :=
  range_search_recursive t mi ma 0 []

/-- Squared Euclidean distance; the source takes math.sqrt of this sum
(tree.py line 249) and the model compares squares instead. -/
def distSq (a b : Int × Int) : Int :=
  (a.1 - b.1) ^ 2 + (a.2 - b.2) ^ 2

/-- The update on tree.py lines 249-255: replace the running best when
the distance to the current node is strictly smaller.  The running best
is none while best[2] is the initial +infinity. -/
def updateBest (q : Int × Int) (e : α) (tgt : Int × Int)
    (best : Option (((Int × Int) × α) × Int)) : Option (((Int × Int) × α) × Int) :=
  match best with
  | none => some ((q, e), distSq q tgt)
  | some b => if distSq q tgt < b.2 then some ((q, e), distSq q tgt) else some b

/-- The pruning test of tree.py lines 264 and 269:
abs(target[axis] - node.point[axis]) < best distance, stated on squares;
against the initial +infinity (none) it always holds. -/
def farCheck (tgt q : Int × Int) (axis : Nat)
    (best : Option (((Int × Int) × α) × Int)) : Bool :=
  match best with
  | none => true
  | some b => decide ((coord tgt axis - coord q axis) ^ 2 < b.2)

/-- tree.py lines 234-270, KDTree._nearest_neighbor_recursive: update
the best with the current node, recurse into the near child first
(left when target[axis] < node.point[axis], else right), then into the
far child only when the splitting hyperplane is closer than the current
best distance. -/
def nearest_neighbor_recursive (t : Tree α) (tgt : Int × Int) (depth : Nat)
    (best : Option (((Int × Int) × α) × Int)) : Option (((Int × Int) × α) × Int) :=
  match t with
  | .nil => best
  | .node q e l r =>
    let b1 := updateBest q e tgt best
    if coord tgt (depth % 2) < coord q (depth % 2) then
      let b2 := nearest_neighbor_recursive l tgt (depth + 1) b1
      if farCheck tgt q (depth % 2) b2 then
        nearest_neighbor_recursive r tgt (depth + 1) b2
      else b2
    else
      let b2 := nearest_neighbor_recursive r tgt (depth + 1) b1
      if farCheck tgt q (depth % 2) b2 then
        nearest_neighbor_recursive l tgt (depth + 1) b2
      else b2

/-- tree.py lines 217-232, KDTree.nearest_neighbor: none on an empty
tree, else the result of the recursion started from an infinite best
distance (the final best[0] is always set on a nonempty tree, so the
tuple is returned). -/
def nearest_neighbor (t : Tree α) (tgt : Int × Int) : Option (((Int × Int) × α) × Int) :=
  match t with
  | .nil => none
  | .node _ _ _ _ => nearest_neighbor_recursive t tgt 0 none

/-- Every point of the subtree satisfies the test. -/
def allTree (f : (Int × Int) → Bool) : Tree α → Bool
  | .nil => true
  | .node q _ l r => f q && allTree f l && allTree f r

/-- The axis-alternating partition invariant at depth d: at each node
with axis = d mod 2, the left subtree is strictly below and the right
subtree at or above the node along that axis, recursively. -/
def invariantAt : Tree α → Nat → Bool
  | .nil, _ => true
  | .node q _ l r, d =>
    allTree (fun p => decide (coord p (d % 2) < coord q (d % 2))) l &&
    allTree (fun p => decide (coord q (d % 2) ≤ coord p (d % 2))) r &&
    invariantAt l (d + 1) && invariantAt r (d + 1)

/-- State-threaded form of range_search_recursive: each recursive call
returns the subtree it traversed together with the result list, and the
parent node is rebuilt from the returned children, mirroring how the
Python object graph persists across the calls.  The source assigns no
node field, so the tree component is the input subtree. -/
def range_search_state (t : Tree α) (mi ma : Int × Int) (depth : Nat)
    (acc : List ((Int × Int) × α)) : Tree α × List ((Int × Int) × α) :=
  match t with
  | .nil => (.nil, acc)
  | .node q e l r =>
    let acc1 := if inRange q mi ma then acc ++ [(q, e)] else acc
    let lres := if coord mi (depth % 2) ≤ coord q (depth % 2) then
        range_search_state l mi ma (depth + 1) acc1
      else (l, acc1)
    let rres := if coord q (depth % 2) ≤ coord ma (depth % 2) then
        range_search_state r mi ma (depth + 1) lres.2
      else (r, lres.2)
    (.node q e lres.1 rres.1, rres.2)

/-- State-threaded form of nearest_neighbor_recursive, built the same
way as range_search_state: the subtree is passed through and rebuilt
from the returned children, with the running best threaded in the visit
order of the source (near child first, far child conditionally). -/
def nearest_neighbor_state (t : Tree α) (tgt : Int × Int) (depth : Nat)
    (best : Option (((Int × Int) × α) × Int)) :
    Tree α × Option (((Int × Int) × α) × Int) :=
  match t with
  | .nil => (.nil, best)
  | .node q e l r =>
    let b1 := updateBest q e tgt best
    if coord tgt (depth % 2) < coord q (depth % 2) then
      let lres := nearest_neighbor_state l tgt (depth + 1) b1
      let rres := if farCheck tgt q (depth % 2) lres.2 then
          nearest_neighbor_state r tgt (depth + 1) lres.2
        else (r, lres.2)
      (.node q e lres.1 rres.1, rres.2)
    else
      let rres := nearest_neighbor_state r tgt (depth + 1) b1
      let lres := if farCheck tgt q (depth % 2) rres.2 then
          nearest_neighbor_state l tgt (depth + 1) rres.2
        else (l, rres.2)
      (.node q e lres.1 rres.1, lres.2)

/-- Tree obtained by inserting (5,5), (7,6), (8,5), (6,7) with payloads
1..4 into the empty tree: the root (5,5) has right child (7,6), whose
children are (8,5) on the left and (6,7) on the right. -/
def sampleInserts : Tree Nat :=
  insert (insert (insert (insert Tree.nil (5, 5) 1) (7, 6) 2) (8, 5) 3) (6, 7) 4

/-- Tree reached from the empty tree by the four inserts of
sampleInserts followed by delete of (5,5). -/
def afterDelete : Tree Nat := (delete sampleInserts (5, 5)).1

/-- Tree obtained by inserting (5,5), (3,8), (4,2) with payloads 1..3
into the empty tree: root (5,5), left child (3,8), whose left child is
(4,2). -/
def minSample : Tree Nat :=
  insert (insert (insert Tree.nil (5, 5) 1) (3, 8) 2) (4, 2) 3

end KD


namespace KD

variable {α : Type}

/-- Helper: coordinate bounds extracted from a successful containment
test, for any axis value. -/
theorem coord_le_of_inRange {q mi ma : Int × Int} (h : inRange q mi ma = true) (a : Nat) :
    coord mi a ≤ coord q a ∧ coord q a ≤ coord ma a := by
  simp only [inRange, Bool.and_eq_true, decide_eq_true_eq] at h
  obtain ⟨⟨⟨h1, h2⟩, h3⟩, h4⟩ := h
  by_cases ha : a = 0 <;> simp [coord, ha] <;> constructor <;> assumption

/-- Helper: deleting a point stored nowhere in the subtree returns the
subtree unchanged with the flag false, at every depth. -/
theorem delete_recursive_absent (t : Tree α) (p : Int × Int) (d : Nat)
    (h : p ∉ points t) : delete_recursive t p d = (t, false) := by
  induction t generalizing d with
  | nil => rfl
  | node q e l r ihl ihr =>
    simp only [points, List.mem_cons, List.mem_append] at h
    push_neg at h
    obtain ⟨hq, hl, hr⟩ := h
    simp only [delete_recursive]
    rw [if_neg (fun hqp => hq hqp.symm)]
    split_ifs with hc
    · rw [ihl (d + 1) hl]
    · rw [ihr (d + 1) hr]

/-- Claim C6: deleting a point not stored in the tree returns false and
leaves the tree unchanged, with the same structure, points and
payloads. -/
theorem delete_absent_unchanged (t : Tree α) (p : Int × Int)
    (h : p ∉ points t) : delete t p = (t, false) :=
  delete_recursive_absent t p 0 h

/-- Concrete instance of delete_absent_unchanged: (100,100) is not in
the four-point sample tree, and deleting it changes nothing. -/
theorem delete_absent_unchanged_witness :
    (100, 100) ∉ points sampleInserts ∧
    delete sampleInserts (100, 100) = (sampleInserts, false) :=
  ⟨by decide, delete_absent_unchanged sampleInserts (100, 100) (by decide)⟩

/-- Helper: insertion grows the node count by exactly one at every
depth. -/
theorem size_insert_recursive (t : Tree α) (p : Int × Int) (dat : α) (d : Nat) :
    size (insert_recursive t p dat d) = size t + 1 := by
  induction t generalizing d with
  | nil => rfl
  | node q e l r ihl ihr =>
    simp only [insert_recursive]
    split_ifs with hc <;> simp only [size, ihl, ihr] <;> omega

/-- Helper: when every stored point passes the containment test, no
branch is pruned and the traversal appends every node once, so the
result length is the accumulator length plus the subtree size. -/
theorem range_search_recursive_covered (t : Tree α) (mi ma : Int × Int) :
    ∀ (d : Nat) (acc : List ((Int × Int) × α)),
    (∀ q ∈ points t, inRange q mi ma = true) →
    (range_search_recursive t mi ma d acc).length = acc.length + size t := by
  induction t with
  | nil => intro d acc _; simp [range_search_recursive, size]
  | node q e l r ihl ihr =>
    intro d acc h
    have hq : inRange q mi ma = true := h q (by simp [points])
    have hmi := (coord_le_of_inRange hq (d % 2)).1
    have hma := (coord_le_of_inRange hq (d % 2)).2
    have hl : ∀ x ∈ points l, inRange x mi ma = true := by
      intro x hx; exact h x (by simp [points]; exact Or.inr (Or.inl hx))
    have hr : ∀ x ∈ points r, inRange x mi ma = true := by
      intro x hx; exact h x (by simp [points]; exact Or.inr (Or.inr hx))
    simp only [range_search_recursive]
    rw [if_pos hq, if_pos hmi, if_pos hma]
    rw [ihr (d + 1) _ hr, ihl (d + 1) _ hl]
    simp [size]
    omega

/-- Claim C7: insert always succeeds and adds exactly one node: the
size grows by one (so n distinct inserts into the empty tree give n
nodes and a duplicate insert gives one more), every node is reachable
by a range search whose rectangle covers all stored points, and a point
whose coordinate equals the node coordinate on the split axis goes to
the right branch, never the left. -/
theorem insert_adds_exactly_one (t : Tree α) (p : Int × Int) (dat : α) :
    size (insert t p dat) = size t + 1 ∧
    (∀ mi ma, (∀ q ∈ points (insert t p dat), inRange q mi ma = true) →
      (range_search (insert t p dat) mi ma).length = size t + 1) ∧
    (∀ (q : Int × Int) (e : α) (l r : Tree α) (d : Nat),
      coord p (d % 2) = coord q (d % 2) →
      insert_recursive (Tree.node q e l r) p dat d =
        Tree.node q e l (insert_recursive r p dat (d + 1))) := by
  refine ⟨size_insert_recursive t p dat 0, ?_, ?_⟩
  · intro mi ma h
    have := range_search_recursive_covered (insert t p dat) mi ma 0 [] h
    simpa [range_search, insert, size_insert_recursive t p dat 0] using this
  · intro q e l r d hcoord
    simp only [insert_recursive]
    rw [if_neg (not_lt.mpr (le_of_eq hcoord.symm))]

/-- Concrete instance of insert_adds_exactly_one: inserting a duplicate
of (7,6) into the four-point sample grows it to five nodes, all
reachable by a covering range search, and an equal-x point descends
right at the root. -/
theorem insert_adds_exactly_one_witness :
    size (insert sampleInserts (7, 6) 9) = size sampleInserts + 1 ∧
    (range_search (insert sampleInserts (7, 6) 9) (0, 0) (100, 100)).length =
      size sampleInserts + 1 ∧
    insert_recursive (Tree.node (7, 6) 0 Tree.nil Tree.nil) (7, 6) 9 0 =
      Tree.node (7, 6) 0 Tree.nil (insert_recursive Tree.nil (7, 6) 9 1) :=
  ⟨(insert_adds_exactly_one sampleInserts (7, 6) 9).1,
   (insert_adds_exactly_one sampleInserts (7, 6) 9).2.1 (0, 0) (100, 100) (by decide),
   (insert_adds_exactly_one Tree.nil (7, 6) 9).2.2 (7, 6) 0 Tree.nil Tree.nil 0 (by decide)⟩

/-- Helper: with an inverted rectangle the containment test rejects
every point, so the traversal only ever returns its accumulator. -/
theorem range_search_recursive_inverted (t : Tree α) {mi ma : Int × Int}
    (h : ma.1 < mi.1 ∨ ma.2 < mi.2) :
    ∀ (d : Nat) (acc : List ((Int × Int) × α)),
    range_search_recursive t mi ma d acc = acc := by
  induction t with
  | nil => intro d acc; rfl
  | node q e l r ihl ihr =>
    intro d acc
    have hq : inRange q mi ma = false := by
      rw [Bool.eq_false_iff]
      intro hq
      have h1 := coord_le_of_inRange hq 0
      have h2 := coord_le_of_inRange hq 1
      simp [coord] at h1 h2
      rcases h with h | h <;> omega
    simp only [range_search_recursive, hq, Bool.false_eq_true, if_false]
    split_ifs <;> simp [ihl, ihr]

/-- Claim C8: a range search whose rectangle is inverted on some axis
returns the empty list on every tree. -/
theorem range_search_inverted_empty (t : Tree α) (mi ma : Int × Int)
    (h : ma.1 < mi.1 ∨ ma.2 < mi.2) : range_search t mi ma = [] :=
  range_search_recursive_inverted t h 0 []

/-- Concrete instance of range_search_inverted_empty on the four-point
sample tree with min corner (10,10) above max corner (0,0). -/
theorem range_search_inverted_empty_witness :
    range_search sampleInserts (10, 10) (0, 0) = [] :=
  range_search_inverted_empty sampleInserts (10, 10) (0, 0) (Or.inl (by decide))

end KD

namespace KD

variable {α : Type}

/-- Helper: the state-threaded range search computes the same result
list as the plain one. -/
theorem range_search_state_result (t : Tree α) (mi ma : Int × Int) :
    ∀ (d : Nat) (acc : List ((Int × Int) × α)),
    (range_search_state t mi ma d acc).2 = range_search_recursive t mi ma d acc := by
  induction t with
  | nil => intro d acc; rfl
  | node q e l r ihl ihr =>
    intro d acc
    simp only [range_search_state, range_search_recursive]
    split_ifs <;> simp [ihl, ihr]

/-- Helper: the state-threaded nearest-neighbor search computes the same
best as the plain one. -/
theorem nearest_neighbor_state_result (t : Tree α) (tgt : Int × Int) :
    ∀ (d : Nat) (best : Option (((Int × Int) × α) × Int)),
    (nearest_neighbor_state t tgt d best).2 = nearest_neighbor_recursive t tgt d best := by
  induction t with
  | nil => intro d best; rfl
  | node q e l r ihl ihr =>
    intro d best
    simp only [nearest_neighbor_state, nearest_neighbor_recursive, ihl, ihr]
    split_ifs <;> simp [ihl, ihr]

/-- Claim C9: range_search and nearest_neighbor are pure queries: the
state-threaded forms of both traversals return the input tree itself,
with every node, point and payload unchanged. -/
theorem queries_leave_tree_unchanged (t : Tree α) :
    (∀ (mi ma : Int × Int) (d : Nat) (acc : List ((Int × Int) × α)),
      (range_search_state t mi ma d acc).1 = t) ∧
    (∀ (tgt : Int × Int) (d : Nat) (best : Option (((Int × Int) × α) × Int)),
      (nearest_neighbor_state t tgt d best).1 = t) := by
  constructor
  · intro mi ma d acc
    induction t generalizing d acc with
    | nil => rfl
    | node q e l r ihl ihr =>
      simp only [range_search_state]
      split_ifs <;> simp [ihl, ihr]
  · intro tgt d best
    induction t generalizing d best with
    | nil => rfl
    | node q e l r ihl ihr =>
      simp only [nearest_neighbor_state]
      split_ifs <;> simp [ihl, ihr]

/-- Claim C10: nearest_neighbor is deterministic: equal trees with the
same target give identical results, and the best-update step keeps the
earlier best on an exact distance tie, so ties resolve to the first
node encountered in the fixed visiting order. -/
theorem nearest_neighbor_deterministic (t₁ t₂ : Tree α) (tgt : Int × Int) :
    (t₁ = t₂ → nearest_neighbor t₁ tgt = nearest_neighbor t₂ tgt) ∧
    (∀ (q : Int × Int) (e : α) (b : ((Int × Int) × α) × Int),
      distSq q tgt = b.2 → updateBest q e tgt (some b) = some b) := by
  constructor
  · intro h; rw [h]
  · intro q e b hb
    simp [updateBest, hb]

/-- Concrete instance of nearest_neighbor_deterministic: the sample tree
compared with itself, and a tied update at squared distance 25 keeping
the earlier best point (4,3). -/
theorem nearest_neighbor_deterministic_witness :
    nearest_neighbor sampleInserts (6, 5) = nearest_neighbor sampleInserts (6, 5) ∧
    updateBest (3, 4) 7 (0, 0) (some (((4, 3), 9), 25)) = some (((4, 3), 9), 25) :=
  ⟨(nearest_neighbor_deterministic sampleInserts sampleInserts (6, 5)).1 rfl,
   (nearest_neighbor_deterministic (Tree.nil (α := Nat)) Tree.nil (0, 0)).2
     (3, 4) 7 (((4, 3), 9), 25) (by decide)⟩

/-- Claim C1 fails on the code: after inserting (5,5), (7,6), (8,5),
(6,7) into the empty tree and deleting (5,5) (which reports success),
the axis-alternating partition invariant is violated: the root becomes
(8,5) while its right subtree still holds (7,6) and (6,7), both with
x below 8.  The cause is find_min, which for target axis 0 descends
only left pointers and never checks the right child or the node itself
at depths whose split axis is 1, so the deleted root is replaced by
(8,5) instead of the true x-minimum (6,7). -/
theorem invariant_broken_after_deletion :
    (delete sampleInserts (5, 5)).2 = true ∧
    invariantAt afterDelete 0 = false ∧
    points afterDelete = [(8, 5), (7, 6), (6, 7)] := by decide

/-- Claim C2 fails on the code: the tree built by inserting (5,5),
(3,8), (4,2) satisfies the invariant at depth 0 and stores (3,8) with
x = 3, yet find_min along axis 0 returns (4,2) with x = 4, because it
blindly follows left pointers through the depth-1 node (3,8) whose
split axis is 1 without comparing coordinates. -/
theorem find_min_not_minimal :
    invariantAt minSample 0 = true ∧
    (3, 8) ∈ points minSample ∧
    find_min minSample 0 = some ((4, 2), 3) ∧
    coord (3, 8) 0 < coord (4, 2) 0 := by decide

/-- Claim C3 fails on the code: the tree afterDelete is reachable by
inserts and one delete, stores (7,6) among its 3 nodes, yet
delete (7,6) returns false and leaves all 3 nodes in place, because the
earlier delete broke the invariant and the comparison-guided search
walks past the matching node. -/
theorem delete_present_reports_not_found :
    (7, 6) ∈ points afterDelete ∧
    delete afterDelete (7, 6) = (afterDelete, false) ∧
    size afterDelete = 3 := by decide

/-- Claim C4 fails on the code: on the reachable tree afterDelete the
stored point (7,6) lies inside the closed rectangle with both corners
(7,6), yet range_search returns the empty list, because the pruning
step trusts the broken invariant and skips the right subtree at the
root (8,5). -/
theorem range_search_misses_stored_point :
    (7, 6) ∈ points afterDelete ∧
    inRange (7, 6) (7, 6) (7, 6) = true ∧
    range_search afterDelete (7, 6) (7, 6) = [] := by decide

/-- Claim C5 fails on the code: on the reachable tree afterDelete with
target (6,5), nearest_neighbor returns the root (8,5) at squared
distance 4, although the stored point (7,6) is strictly closer at
squared distance 2; the pruning step skips the right subtree because
the squared hyperplane distance 4 is not below the running best 4, a
bound that is only sound when the invariant holds. -/
theorem nearest_neighbor_not_minimal :
    nearest_neighbor afterDelete (6, 5) = some (((8, 5), 3), 4) ∧
    (7, 6) ∈ points afterDelete ∧
    distSq (7, 6) (6, 5) < 4 := by decide

end KD
